import Mathlib

/-!
Verification of the session channel client (`WebSocketService` in
`frontend/src/services/websocket.ts`) against its specification.

The client is shallowly embedded as a small-step operational model:

* `Client` mirrors the mutable fields of the `WebSocketService` instance
  (`ws`, `reconnectAttempts`, `maxReconnectAttempts`, `reconnectDelay`,
  `messageHandlers`, `isConnecting`).
* `World` adds the environment the class interacts with: the set of
  underlying WebSocket objects ever constructed together with their
  transport state, the number of pending `setTimeout` reconnect timers,
  and observation logs (outbound frames, handler invocations, scheduled
  reconnect attempts, `resolve()` calls of `connect()` promises).
* `Ev` enumerates the API calls the UI can make and the transport
  callbacks (`onopen`, `onmessage`, `onclose`, `onerror`, timer expiry);
  `step` executes the corresponding handler body exactly as written in
  the source.
* Subscriber callbacks are opaque: they are identified by a number and an
  environment `throws : Nat → Bool` says which of them raise when invoked.
  A raised exception propagates exactly as far as the source's `try`/`catch`
  blocks let it.
-/

namespace AllHands

/-- JavaScript values appearing in `metadata` records; only as much structure
as the frames under study need (`undefined` matters because
`{ ...metadata, provider: provider }` stores `undefined` when no provider is
given). -/
inductive JVal where
  | vUndef : JVal
  | vStr : String → JVal
  | vNum : Int → JVal
  | vBool : Bool → JVal
  deriving DecidableEq, Repr

/-- First-match lookup in an association list; models `Map.get` for the
handler registry, key lookup in a JS object, and the socket table. -/
def mget {κ α : Type} [DecidableEq κ] : List (κ × α) → κ → Option α
  | [], _ => none
  | (k, v) :: rest, key => if k = key then some v else mget rest key

/-- Remove every binding of a key from an association list; models
`Map.delete` and key overriding in a JS object. -/
def mdel {κ α : Type} [DecidableEq κ] : List (κ × α) → κ → List (κ × α)
  | [], _ => []
  | (k, v) :: rest, key =>
      if k = key then mdel rest key else (k, v) :: mdel rest key

/-- `Map.set`: the new binding replaces any previous binding for the tag. -/
def mset {κ α : Type} [DecidableEq κ] (l : List (κ × α)) (key : κ) (v : α) :
    List (κ × α) :=
  (key, v) :: mdel l key

/-- `handleMessage(data)` from the source, for a frame whose `type` field is
`tag`: look up the handler for `data.type` and invoke it, then look up the
wildcard handler under `"*"` and invoke it.  There is no `try`/`catch`
inside `handleMessage`, so an exception from the specific handler aborts
the method before the wildcard lookup.  Returns the sequence of handler
invocations that actually happened and whether an exception propagated out. -/
def handleMessage (hs : List (String × Nat)) (throws : Nat → Bool)
    (tag : String) : List Nat × Bool :=
  match mget hs tag with
  | some h =>
      if throws h then ([h], true)
      else
        match mget hs "*" with
        | some g => ([h, g], throws g)
        | none => ([h], false)
  | none =>
      match mget hs "*" with
      | some g => ([g], throws g)
      | none => ([], false)

/-- The `ws.onmessage` callback body: `try { JSON.parse; handleMessage } catch
{ console.error }`.  `raw = none` models an event whose data does not parse
as JSON (the parse throws and is caught); `raw = some tag` models a parsed
frame whose `type` field is `tag`.  Any exception a handler raises is
absorbed by the same `catch`, so the callback itself never throws; its
observable effect is the list of handler invocations that happened. -/
def onMessageCb (hs : List (String × Nat)) (throws : Nat → Bool)
    (raw : Option String) : List Nat :=
  match raw with
  | none => []
  | some tag => (handleMessage hs throws tag).1

/-- The tag set of the `WebSocketMessage` union in `frontend/src/types/index.ts`
(the spec's `ChannelEvent` tags). -/
def recognizedTags : List String :=
  ["connection_established", "message", "message_received", "typing",
   "typing_stop", "error", "message_history", "pong"]

/-- Value stored under `provider` by `{ ...metadata, provider: provider }`:
the string when one is passed, JS `undefined` otherwise. -/
def provVal : Option String → JVal
  | some s => JVal.vStr s
  | none => JVal.vUndef

/-- The object `{ ...metadata, provider: provider }` built by `sendMessage`,
viewed as a key-value mapping: every key of the caller's metadata keeps its
value except `provider`, which is bound to the `provider` argument.  A
missing `metadata` argument spreads as the empty object. -/
def mdSpread (md : Option (List (String × JVal))) (provider : Option String) :
    List (String × JVal) :=
  mdel (md.getD []) "provider" ++ [("provider", provVal provider)]

/-- An outbound wire frame, as the JS object handed to `JSON.stringify`.
Timestamps are modelled as the millisecond clock value that
`new Date().toISOString()` renders. -/
structure Frame where
  type : String
  content : Option String
  metadata : Option (List (String × JVal))
  timestamp : Option Nat
  deriving DecidableEq, Repr

/-- The frame `sendMessage` builds when the socket is open. -/
def mkMessageFrame (content : String) (md : Option (List (String × JVal)))
    (provider : Option String) (now : Nat) : Frame :=
  { type := "message", content := some content,
    metadata := some (mdSpread md provider), timestamp := some now }

/-- Transport-side state of one underlying WebSocket object.  `closing`
covers a socket on which `close()` was called or which has errored and is
doomed to close; `closed` means its close event has been delivered. -/
inductive SockState where
  | connecting : SockState
  | opened : SockState
  | closing : SockState
  | closed : SockState
  deriving DecidableEq, Repr

/-- The mutable fields of a `WebSocketService` instance.  `ws` holds the id
of the socket currently referenced by `this.ws` (if any); handlers are a
registry from tag to opaque handler id. -/
structure Client where
  ws : Option Nat
  reconnectAttempts : Nat
  maxReconnectAttempts : Nat
  reconnectDelay : Nat
  messageHandlers : List (String × Nat)
  isConnecting : Bool
  deriving DecidableEq, Repr

/-- A freshly constructed `WebSocketService`. -/
def Client.init : Client :=
  { ws := none, reconnectAttempts := 0, maxReconnectAttempts := 5,
    reconnectDelay := 1000, messageHandlers := [], isConnecting := false }

/-- The client together with its environment and observation logs:
`sockets` maps every socket id ever constructed to its transport state,
`timers` counts pending reconnect `setTimeout`s, `schedLog` records each
automatically scheduled reconnect as (attempt number, delay in ms),
`sent` records outbound frames, `dispatched` records handler invocations,
`resolves` counts `resolve()` calls of `connect()` promises. -/
structure World where
  client : Client
  sockets : List (Nat × SockState)
  nextId : Nat
  timers : Nat
  schedLog : List (Nat × Nat)
  sent : List Frame
  dispatched : List Nat
  resolves : Nat
  deriving DecidableEq, Repr

/-- The world at construction time: no socket, no timer, empty logs. -/
def World.init : World :=
  { client := Client.init, sockets := [], nextId := 0, timers := 0,
    schedLog := [], sent := [], dispatched := [], resolves := 0 }

/-- `this.ws && this.ws.readyState === WebSocket.OPEN`. -/
def sockIsOpen (ss : List (Nat × SockState)) (sid : Nat) : Bool :=
  match mget ss sid with
  | some SockState.opened => true
  | _ => false

/-- The guard of `connect()`: `this.isConnecting || (this.ws &&
this.ws.readyState === WebSocket.OPEN)`. -/
def wsIsOpen (w : World) : Bool :=
  match w.client.ws with
  | some sid => sockIsOpen w.sockets sid
  | none => false

/-- Update the transport state of socket `sid` in the socket table. -/
def setSock (ss : List (Nat × SockState)) (sid : Nat) (st : SockState) :
    List (Nat × SockState) :=
  ss.map (fun p => if p.1 = sid then (sid, st) else p)

/-- Effect of calling `close()` on socket `sid`: a socket still connecting
or open begins its close handshake; on a closing or closed socket the call
is a no-op. -/
def closeSock (ss : List (Nat × SockState)) (sid : Nat) :
    List (Nat × SockState) :=
  ss.map (fun p =>
    if p.1 = sid ∧ (p.2 = SockState.connecting ∨ p.2 = SockState.opened)
    then (sid, SockState.closing) else p)

/-- The body of `connect()`: if already connecting or the current socket is
open, resolve immediately and do nothing else; otherwise set `isConnecting`,
construct a fresh WebSocket and store it in `this.ws`.  (The promise
resolution of the non-guard path happens later, in `onopen`.) -/
def connectBody (w : World) : World :=
  if w.client.isConnecting || wsIsOpen w then
    { w with resolves := w.resolves + 1 }
  else
    { w with
      client := { w.client with isConnecting := true, ws := some w.nextId },
      sockets := w.sockets ++ [(w.nextId, SockState.connecting)],
      nextId := w.nextId + 1 }

/-- API calls and environment callbacks driving the client.  Transport
events name the socket they fire on: the source installs one handler per
socket, and a socket keeps delivering its events even after `this.ws`
stopped referencing it.  `msgEvt` carries `none` when the frame data does
not parse as JSON and `some tag` for a parsed frame with that `type`. -/
inductive Ev where
  | callConnect : Ev
  | callDisconnect : Ev
  | callSend : String → Option (List (String × JVal)) → Option String → Nat → Ev
  | callRequestHistory : Ev
  | callPing : Ev
  | callOn : String → Nat → Ev
  | callOff : String → Ev
  | openEvt : Nat → Ev
  | msgEvt : Nat → Option String → Ev
  | closeEvt : Nat → Ev
  | errorEvt : Nat → Ev
  | timerFire : Ev
  deriving DecidableEq, Repr

/-- One step of the client: `none` when the event's precondition fails (the
transport cannot fire that callback in this world), `some w'` otherwise.
Each branch is a direct transcription of the corresponding method or
callback body in the source. -/
def step (throws : Nat → Bool) (w : World) : Ev → Option World
  | Ev.callConnect => some (connectBody w)
  | Ev.callDisconnect =>
      -- if (this.ws) { this.ws.close(); this.ws = null; }
      -- this.messageHandlers.clear();
      -- NB: no clearTimeout anywhere, and the closed socket's onclose stays installed.
      some { w with
        sockets := (match w.client.ws with
          | some sid => closeSock w.sockets sid
          | none => w.sockets),
        client := { w.client with ws := none, messageHandlers := [] } }
  | Ev.callSend content md provider now =>
      if wsIsOpen w then
        some { w with sent := w.sent ++ [mkMessageFrame content md provider now] }
      else
        -- console.error('WebSocket is not connected'); return;
        some w
  | Ev.callRequestHistory =>
      if wsIsOpen w then
        some { w with sent := w.sent ++
          [{ type := "get_history", content := none, metadata := none,
             timestamp := none }] }
      else some w
  | Ev.callPing =>
      if wsIsOpen w then
        some { w with sent := w.sent ++
          [{ type := "ping", content := none, metadata := none,
             timestamp := none }] }
      else some w
  | Ev.callOn tag h =>
      some { w with client :=
        { w.client with messageHandlers := mset w.client.messageHandlers tag h } }
  | Ev.callOff tag =>
      some { w with client :=
        { w.client with messageHandlers := mdel w.client.messageHandlers tag } }
  | Ev.openEvt sid =>
      -- only a connecting socket can open
      match mget w.sockets sid with
      | some SockState.connecting =>
          -- this.isConnecting = false; this.reconnectAttempts = 0; resolve();
          some { w with sockets := setSock w.sockets sid SockState.opened,
                        client := { w.client with isConnecting := false,
                                                  reconnectAttempts := 0 },
                        resolves := w.resolves + 1 }
      | _ => none
  | Ev.msgEvt sid raw =>
      -- messages are delivered only on an open socket
      match mget w.sockets sid with
      | some SockState.opened =>
          some { w with dispatched :=
            w.dispatched ++ onMessageCb w.client.messageHandlers throws raw }
      | _ => none
  | Ev.closeEvt sid =>
      -- a socket delivers its close event exactly once, from any live state
      match mget w.sockets sid with
      | none => none
      | some SockState.closed => none
      | some _ =>
          -- this.isConnecting = false; this.ws = null;
          -- then: if (attempts < max) { attempts++; setTimeout(connect, delay * attempts) }
          if w.client.reconnectAttempts < w.client.maxReconnectAttempts then
            some { w with
              client := { w.client with
                          isConnecting := false,
                          ws := none,
                          reconnectAttempts := w.client.reconnectAttempts + 1 },
              sockets := setSock w.sockets sid SockState.closed,
              timers := w.timers + 1,
              schedLog := w.schedLog ++ [(w.client.reconnectAttempts + 1,
                w.client.reconnectDelay * (w.client.reconnectAttempts + 1))] }
          else
            some { w with
              client := { w.client with isConnecting := false, ws := none },
              sockets := setSock w.sockets sid SockState.closed }
  | Ev.errorEvt sid =>
      -- a connection error dooms the socket (its close event is still pending)
      match mget w.sockets sid with
      | some SockState.connecting =>
          -- this.isConnecting = false; reject(error);
          some { w with sockets := setSock w.sockets sid SockState.closing,
                        client := { w.client with isConnecting := false } }
      | some SockState.opened =>
          some { w with sockets := setSock w.sockets sid SockState.closing,
                        client := { w.client with isConnecting := false } }
      | _ => none
  | Ev.timerFire =>
      -- a pending reconnect timer expires and runs this.connect()
      if w.timers = 0 then none
      else some (connectBody { w with timers := w.timers - 1 })

/-- Run a sequence of events; fails when some event's precondition fails. -/
def steps (throws : Nat → Bool) : World → List Ev → Option World
  | w, [] => some w
  | w, e :: rest =>
      match step throws w e with
      | some w' => steps throws w' rest
      | none => none

/-- Whether an event is a transport open (the only event that resets the
reconnect-attempt counter). -/
def Ev.isOpen : Ev → Bool
  | Ev.openEvt _ => true
  | _ => false

/-- Whether an event is a handler registration via `onMessage`. -/
def Ev.isOn : Ev → Bool
  | Ev.callOn _ _ => true
  | _ => false

/-- Number of underlying sockets currently in the OPEN transport state. -/
def openCount (w : World) : Nat :=
  (w.sockets.filter (fun p => decide (p.2 = SockState.opened))).length

/-- Reconnect-policy invariant: default constants, the attempt counter
within budget, and every logged reconnect carrying attempt number `n` in
`[1, 5]` with delay `1000 * n`. -/
def WInv (w : World) : Prop :=
  w.client.maxReconnectAttempts = 5 ∧ w.client.reconnectDelay = 1000 ∧
  w.client.reconnectAttempts ≤ 5 ∧
  ∀ p ∈ w.schedLog, p.2 = 1000 * p.1 ∧ 1 ≤ p.1 ∧ p.1 ≤ 5

/-- Handler environment in which no subscriber callback throws. -/
def noThrow : Nat → Bool := fun _ => false

/-- Handler environment in which exactly the callback with id 1 throws. -/
def oneThrow : Nat → Bool := fun h => decide (h = 1)

/-- Connect, then transport-close the socket, let the retry timer fire, and
transport-close the retry socket as well: two closes, never an open. -/
def exT1 : List Ev := [Ev.callConnect, Ev.closeEvt 0, Ev.timerFire, Ev.closeEvt 1]

/-- The world `exT1` leads to from construction. -/
def exW1 : World := (steps noThrow World.init exT1).getD World.init

/-- Connect, transport open, explicit `disconnect()`, then the transport
delivers the close event of the socket that `disconnect()` closed. -/
def exT2 : List Ev := [Ev.callConnect, Ev.openEvt 0, Ev.callDisconnect, Ev.closeEvt 0]

/-- Register a `connection_established` subscriber, connect, transport open. -/
def exT3 : List Ev := [Ev.callOn "connection_established" 7, Ev.callConnect, Ev.openEvt 0]

/-- Register an `error` subscriber, then `sendMessage` while never connected. -/
def exT4 : List Ev := [Ev.callOn "error" 9, Ev.callSend "hi" none none 0]

/-- Connect; the first socket errors while connecting; the caller retries
`connect()`; the errored socket delivers its close (nulling `this.ws` and
scheduling a retry); the retry timer fires; both remaining sockets open. -/
def exT7 : List Ev :=
  [Ev.callConnect, Ev.errorEvt 0, Ev.callConnect, Ev.closeEvt 0, Ev.timerFire,
   Ev.openEvt 1, Ev.openEvt 2]

/-- A world in the middle of its first `connect()` (`isConnecting` set). -/
def exConnW : World := connectBody World.init

/-- A world with one open socket and handlers for `message` (id 1, which
throws in `oneThrow`) and the wildcard (id 2). -/
def exOpenW : World :=
  { World.init with
    client :=
      { Client.init with
        ws := some 0
        messageHandlers := [("message", 1), ("*", 2)] }
    sockets := [(0, SockState.opened)]
    nextId := 1 }

/-- The world after a fresh client's first `connect()` constructed socket 0. -/
def exW3 : World := (steps noThrow World.init [Ev.callConnect]).getD World.init

/-- `exW3` after socket 0 signals open. -/
def exW3b : World := (step noThrow exW3 (Ev.openEvt 0)).getD World.init

/-- A world with one open socket and a `connection_established` handler
(id 7) registered. -/
def exEstW : World :=
  { World.init with
    client :=
      { Client.init with
        ws := some 0
        messageHandlers := [("connection_established", 7)] }
    sockets := [(0, SockState.opened)]
    nextId := 1 }

/-- `exEstW` after the server sends a `connection_established` frame. -/
def exEstW2 : World :=
  (step noThrow exEstW (Ev.msgEvt 0 (some "connection_established"))).getD
    World.init

/-- `exOpenW` after an inbound frame that fails to parse as JSON. -/
def exMsgNoneW : World :=
  (step noThrow exOpenW (Ev.msgEvt 0 none)).getD World.init

/-- `exOpenW` after an inbound `message` frame whose specific handler (id 1)
throws under `oneThrow`. -/
def exMsgThrowW : World :=
  (step oneThrow exOpenW (Ev.msgEvt 0 (some "message"))).getD World.init

/-- A fresh client with a `message` handler (id 3) registered, connected
and with socket 0 open. -/
def exW9 : World :=
  (steps noThrow World.init
    [Ev.callOn "message" 3, Ev.callConnect, Ev.openEvt 0]).getD World.init

/-- `exW9` after an explicit `disconnect()`. -/
def exW9d : World := (step noThrow exW9 Ev.callDisconnect).getD World.init

/-- After the disconnect: the closed socket's close event arrives, its retry
timer fires, the new socket opens, and a live `message` frame arrives. -/
def exT9 : List Ev :=
  [Ev.closeEvt 0, Ev.timerFire, Ev.openEvt 1, Ev.msgEvt 1 (some "message")]

/-- The world `exT9` leads to from `exW9d`. -/
def exW9f : World := (steps noThrow exW9d exT9).getD World.init

/-! ### Lookup lemmas -/

/-- Looking a key up after removing it fails. -/
theorem mget_mdel_self {κ α : Type} [DecidableEq κ] (l : List (κ × α)) (k : κ) :
    mget (mdel l k) k = none := by
  induction l with
  | nil => rfl
  | cons x xs ih =>
      obtain ⟨a, b⟩ := x
      by_cases ha : a = k
      · simp [mdel, ha, ih]
      · simp [mdel, ha, mget, ih]

/-- Removing one key does not change lookups of other keys. -/
theorem mget_mdel_other {κ α : Type} [DecidableEq κ] (l : List (κ × α))
    (k key : κ) (h : key ≠ k) :
    mget (mdel l k) key = mget l key := by
  induction l with
  | nil => rfl
  | cons x xs ih =>
      obtain ⟨a, b⟩ := x
      by_cases ha : a = k
      · have hak : a ≠ key := by
          subst ha; exact Ne.symm h
        simp [mdel, ha, mget, hak, Ne.symm h, ih]
      · by_cases hak : a = key
        · simp [mdel, ha, mget, hak, h]
        · simp [mdel, ha, mget, hak, ih]

/-- Lookup in an append falls through to the right part when the left part
does not bind the key. -/
theorem mget_append_right {κ α : Type} [DecidableEq κ] {l₁ : List (κ × α)}
    (l₂ : List (κ × α)) (k : κ) (h : mget l₁ k = none) :
    mget (l₁ ++ l₂) k = mget l₂ k := by
  induction l₁ with
  | nil => rfl
  | cons x xs ih =>
      obtain ⟨a, b⟩ := x
      by_cases ha : a = k
      · simp [mget, ha] at h
      · simp [mget, ha] at h ⊢
        exact ih h

/-- Lookup in an append is decided by the left part when it binds the key. -/
theorem mget_append_some {κ α : Type} [DecidableEq κ] {l₁ : List (κ × α)}
    (l₂ : List (κ × α)) (k : κ) {v : α} (h : mget l₁ k = some v) :
    mget (l₁ ++ l₂) k = some v := by
  induction l₁ with
  | nil => simp [mget] at h
  | cons x xs ih =>
      obtain ⟨a, b⟩ := x
      by_cases ha : a = k
      · simp [mget, ha] at h ⊢
        exact h
      · simp [mget, ha] at h ⊢
        exact ih h

/-- `{ ...metadata, provider: provider }` binds `provider` to the provider
argument (JS `undefined` when none is passed). -/
theorem mget_mdSpread_provider (md : Option (List (String × JVal)))
    (p : Option String) :
    mget (mdSpread md p) "provider" = some (provVal p) := by
  unfold mdSpread
  rw [mget_append_right _ _ (mget_mdel_self _ _)]
  simp [mget]

/-- `{ ...metadata, provider: provider }` preserves every caller key other
than `provider`. -/
theorem mget_mdSpread_other (md : Option (List (String × JVal)))
    (p : Option String) (k : String) (h : k ≠ "provider") :
    mget (mdSpread md p) k = mget (md.getD []) k := by
  unfold mdSpread
  rcases hm : mget (md.getD []) k with _ | v
  · rw [mget_append_right _ _ (by rw [mget_mdel_other _ _ _ h, hm])]
    simp [mget, Ne.symm h]
  · rw [mget_append_some _ _ (by rw [mget_mdel_other _ _ _ h, hm])]

/-! ### Step analysis -/

/-- With an empty registry the message callback invokes no handler. -/
theorem onMessageCb_nil (throws : Nat → Bool) (raw : Option String) :
    onMessageCb [] throws raw = [] := by
  cases raw <;> rfl

/-- `connect()` leaves the retry bookkeeping, the registry and the logs of
dispatched events and outbound frames untouched (whichever branch runs). -/
theorem connectBody_log (w : World) :
    (connectBody w).client.reconnectAttempts = w.client.reconnectAttempts ∧
    (connectBody w).client.maxReconnectAttempts = w.client.maxReconnectAttempts ∧
    (connectBody w).client.reconnectDelay = w.client.reconnectDelay ∧
    (connectBody w).client.messageHandlers = w.client.messageHandlers ∧
    (connectBody w).schedLog = w.schedLog ∧
    (connectBody w).dispatched = w.dispatched ∧
    (connectBody w).sent = w.sent := by
  unfold connectBody
  split <;> simp

/-- Retry bookkeeping across one step: the policy constants never change,
and either the schedule log is unchanged (with the attempt counter
unchanged, or reset to 0 by a transport open), or exactly one reconnect
was scheduled: the counter was below the budget, got incremented, and the
logged delay is `reconnectDelay` times the new counter. -/
theorem step_facts {throws : Nat → Bool} {w : World} {e : Ev} {w' : World}
    (hs : step throws w e = some w') :
    w'.client.maxReconnectAttempts = w.client.maxReconnectAttempts ∧
    w'.client.reconnectDelay = w.client.reconnectDelay ∧
    ((w'.schedLog = w.schedLog ∧
      (w'.client.reconnectAttempts = w.client.reconnectAttempts ∨
       (e.isOpen = true ∧ w'.client.reconnectAttempts = 0))) ∨
     (w.client.reconnectAttempts < w.client.maxReconnectAttempts ∧
      w'.client.reconnectAttempts = w.client.reconnectAttempts + 1 ∧
      w'.schedLog = w.schedLog ++ [(w.client.reconnectAttempts + 1,
        w.client.reconnectDelay * (w.client.reconnectAttempts + 1))])) := by
  cases e with
  | callConnect =>
      simp only [step, Option.some.injEq] at hs
      subst hs
      obtain ⟨h1, h2, h3, _, h5, _⟩ := connectBody_log w
      exact ⟨h2, h3, Or.inl ⟨h5, Or.inl h1⟩⟩
  | callDisconnect =>
      simp only [step, Option.some.injEq] at hs
      subst hs
      simp
  | callSend content md provider now =>
      simp only [step] at hs
      split at hs <;> (simp only [Option.some.injEq] at hs; subst hs; simp)
  | callRequestHistory =>
      simp only [step] at hs
      split at hs <;> (simp only [Option.some.injEq] at hs; subst hs; simp)
  | callPing =>
      simp only [step] at hs
      split at hs <;> (simp only [Option.some.injEq] at hs; subst hs; simp)
  | callOn tag h =>
      simp only [step, Option.some.injEq] at hs
      subst hs
      simp
  | callOff tag =>
      simp only [step, Option.some.injEq] at hs
      subst hs
      simp
  | openEvt sid =>
      simp only [step] at hs
      split at hs
      · simp only [Option.some.injEq] at hs
        subst hs
        simp [Ev.isOpen]
      · exact absurd hs (by simp)
  | msgEvt sid raw =>
      simp only [step] at hs
      split at hs
      · simp only [Option.some.injEq] at hs
        subst hs
        simp
      · exact absurd hs (by simp)
  | closeEvt sid =>
      simp only [step] at hs
      split at hs
      · exact absurd hs (by simp)
      · exact absurd hs (by simp)
      · split at hs <;> (simp only [Option.some.injEq] at hs; subst hs; simp_all)
  | errorEvt sid =>
      simp only [step] at hs
      split at hs
      · simp only [Option.some.injEq] at hs
        subst hs
        simp
      · simp only [Option.some.injEq] at hs
        subst hs
        simp
      · exact absurd hs (by simp)
  | timerFire =>
      simp only [step] at hs
      split at hs
      · exact absurd hs (by simp)
      · simp only [Option.some.injEq] at hs
        subst hs
        obtain ⟨h1, h2, h3, _, h5, _⟩ :=
          connectBody_log { w with timers := w.timers - 1 }
        exact ⟨h2, h3, Or.inl ⟨h5, Or.inl h1⟩⟩

theorem winv_init : WInv World.init := by
  refine ⟨rfl, rfl, by simp [World.init, Client.init], ?_⟩
  intro p hp
  simp [World.init] at hp

theorem step_winv {throws : Nat → Bool} {w : World} {e : Ev} {w' : World}
    (hw : WInv w) (hs : step throws w e = some w') : WInv w' := by
  obtain ⟨h5, hd, ha, hlog⟩ := hw
  obtain ⟨hm, hdel, hcase⟩ := step_facts hs
  rcases hcase with ⟨hsch, hatt⟩ | ⟨hlt, hatt, hsch⟩
  · refine ⟨hm.trans h5, hdel.trans hd, ?_, ?_⟩
    · rcases hatt with hatt | ⟨_, hatt⟩ <;> omega
    · intro p hp
      rw [hsch] at hp
      exact hlog p hp
  · refine ⟨hm.trans h5, hdel.trans hd, by omega, ?_⟩
    intro p hp
    rw [hsch] at hp
    rcases List.mem_append.mp hp with hp | hp
    · exact hlog p hp
    · simp only [List.mem_singleton] at hp
      subst hp
      refine ⟨by rw [hd], by omega, by omega⟩

theorem steps_winv {throws : Nat → Bool} {w : World} {evs : List Ev} {w' : World}
    (hw : WInv w) (hs : steps throws w evs = some w') : WInv w' := by
  induction evs generalizing w with
  | nil =>
      simp only [steps, Option.some.injEq] at hs
      subst hs
      exact hw
  | cons e rest ih =>
      simp only [steps] at hs
      rcases hmid : step throws w e with _ | wmid
      · rw [hmid] at hs
        exact absurd hs (by simp)
      · rw [hmid] at hs
        exact ih (step_winv hw hmid) hs

/-- Along a step that is not a transport open, the schedule log grows by
exactly the amount the attempt counter grows. -/
theorem step_sched_delta {throws : Nat → Bool} {w : World} {e : Ev} {w' : World}
    (hs : step throws w e = some w') (hne : e.isOpen = false) :
    w'.schedLog.length + w.client.reconnectAttempts
      = w.schedLog.length + w'.client.reconnectAttempts := by
  obtain ⟨_, _, hcase⟩ := step_facts hs
  rcases hcase with ⟨hsch, hatt⟩ | ⟨_, hatt, hsch⟩
  · rcases hatt with hatt | ⟨hopen, _⟩
    · rw [hsch, hatt]
    · rw [hopen] at hne
      exact absurd hne (by simp)
  · rw [hsch, hatt]
    simp
    omega

theorem steps_sched_delta {throws : Nat → Bool} {w : World} {evs : List Ev}
    {w' : World} (hs : steps throws w evs = some w')
    (hne : ∀ e ∈ evs, e.isOpen = false) :
    w'.schedLog.length + w.client.reconnectAttempts
      = w.schedLog.length + w'.client.reconnectAttempts := by
  induction evs generalizing w with
  | nil =>
      simp only [steps, Option.some.injEq] at hs
      subst hs
      rfl
  | cons e rest ih =>
      simp only [steps] at hs
      rcases hmid : step throws w e with _ | wmid
      · rw [hmid] at hs
        exact absurd hs (by simp)
      · rw [hmid] at hs
        have h1 := step_sched_delta hmid (hne e (by simp))
        have h2 := ih hs (fun x hx => hne x (by simp [hx]))
        omega

/-- A successful transport open resets the attempt counter to 0. -/
theorem open_resets {throws : Nat → Bool} {w : World} {sid : Nat} {w' : World}
    (hs : step throws w (Ev.openEvt sid) = some w') :
    w'.client.reconnectAttempts = 0 := by
  simp only [step] at hs
  split at hs
  · simp only [Option.some.injEq] at hs
    subst hs
    rfl
  · exact absurd hs (by simp)

/-- Once the registry is empty, any step other than an `onMessage`
registration keeps it empty and invokes no handler. -/
theorem step_handlers_empty {throws : Nat → Bool} {w : World} {e : Ev}
    {w' : World} (hw : w.client.messageHandlers = [])
    (hnoton : e.isOn = false) (hs : step throws w e = some w') :
    w'.client.messageHandlers = [] ∧ w'.dispatched = w.dispatched := by
  cases e with
  | callConnect =>
      simp only [step, Option.some.injEq] at hs
      subst hs
      obtain ⟨_, _, _, h4, _, h6, _⟩ := connectBody_log w
      exact ⟨h4.trans hw, h6⟩
  | callDisconnect =>
      simp only [step, Option.some.injEq] at hs
      subst hs
      simp
  | callSend content md provider now =>
      simp only [step] at hs
      split at hs <;> (simp only [Option.some.injEq] at hs; subst hs; simp [hw])
  | callRequestHistory =>
      simp only [step] at hs
      split at hs <;> (simp only [Option.some.injEq] at hs; subst hs; simp [hw])
  | callPing =>
      simp only [step] at hs
      split at hs <;> (simp only [Option.some.injEq] at hs; subst hs; simp [hw])
  | callOn tag h =>
      exact absurd hnoton (by simp [Ev.isOn])
  | callOff tag =>
      simp only [step, Option.some.injEq] at hs
      subst hs
      simp [hw, mdel]
  | openEvt sid =>
      simp only [step] at hs
      split at hs
      · simp only [Option.some.injEq] at hs
        subst hs
        simp [hw]
      · exact absurd hs (by simp)
  | msgEvt sid raw =>
      simp only [step] at hs
      split at hs
      · simp only [Option.some.injEq] at hs
        subst hs
        simp [hw, onMessageCb_nil]
      · exact absurd hs (by simp)
  | closeEvt sid =>
      simp only [step] at hs
      split at hs
      · exact absurd hs (by simp)
      · exact absurd hs (by simp)
      · split at hs <;> (simp only [Option.some.injEq] at hs; subst hs; simp [hw])
  | errorEvt sid =>
      simp only [step] at hs
      split at hs
      · simp only [Option.some.injEq] at hs
        subst hs
        simp [hw]
      · simp only [Option.some.injEq] at hs
        subst hs
        simp [hw]
      · exact absurd hs (by simp)
  | timerFire =>
      simp only [step] at hs
      split at hs
      · exact absurd hs (by simp)
      · simp only [Option.some.injEq] at hs
        subst hs
        obtain ⟨_, _, _, h4, _, h6, _⟩ :=
          connectBody_log { w with timers := w.timers - 1 }
        exact ⟨h4.trans hw, h6⟩

theorem steps_handlers_empty {throws : Nat → Bool} {w : World} {evs : List Ev}
    {w' : World} (hw : w.client.messageHandlers = [])
    (hnoton : ∀ e ∈ evs, e.isOn = false)
    (hs : steps throws w evs = some w') :
    w'.client.messageHandlers = [] ∧ w'.dispatched = w.dispatched := by
  induction evs generalizing w with
  | nil =>
      simp only [steps, Option.some.injEq] at hs
      subst hs
      exact ⟨hw, rfl⟩
  | cons e rest ih =>
      simp only [steps] at hs
      rcases hmid : step throws w e with _ | wmid
      · rw [hmid] at hs
        exact absurd hs (by simp)
      · rw [hmid] at hs
        obtain ⟨hh, hd⟩ :=
          step_handlers_empty hw (hnoton e (by simp)) hmid
        obtain ⟨hh2, hd2⟩ :=
          ih hh (fun x hx => hnoton x (List.mem_cons_of_mem e hx)) hs
        exact ⟨hh2, hd2.trans hd⟩

/-! ### Claims -/

/-- Claim C1: from any reachable state, along any further event sequence
containing no transport open, the number of automatically scheduled
reconnect attempts grows by at most `maxAttempts = 5`; every scheduled
retry with attempt number `n` is delayed by `baseDelay * n = 1000 * n`
milliseconds; and a successful transport open resets the attempt counter
to 0. -/
theorem c1_reconnect_bound (throws : Nat → Bool) (pre evs : List Ev)
    (w w' : World) (hpre : steps throws World.init pre = some w)
    (hs : steps throws w evs = some w')
    (hnoopen : ∀ e ∈ evs, e.isOpen = false) :
    w'.schedLog.length ≤ w.schedLog.length + 5 ∧
    (∀ p ∈ w'.schedLog, p.2 = 1000 * p.1) ∧
    (∀ sid w'', step throws w' (Ev.openEvt sid) = some w'' →
      w''.client.reconnectAttempts = 0) := by
  have hw : WInv w := steps_winv winv_init hpre
  have hw' : WInv w' := steps_winv hw hs
  have hdelta := steps_sched_delta hs hnoopen
  obtain ⟨_, _, ha', hlog'⟩ := hw'
  exact ⟨by omega, fun p hp => (hlog' p hp).1,
    fun sid w'' h => open_resets h⟩

/-- Witness for C1: the concrete trace `exT1` (connect; transport close;
retry timer fires; transport close again) satisfies the hypotheses, and the
scheduled-retry count indeed stays within the budget. -/
theorem c1_reconnect_bound_witness :
    exW1.schedLog.length ≤ World.init.schedLog.length + 5 :=
  (c1_reconnect_bound noThrow [] exT1 World.init exW1 rfl rfl (by decide)).1

/-- Claim C2 (code bug): after `disconnect()` on an open connection, the
close event of the very socket that `disconnect()` closed still runs the
`onclose` reconnect logic — the code clears no timer and guards against no
manual close — so one automatic retry (attempt 1, delay 1000 ms) is
scheduled and its timer is left pending, although the claim says
`disconnect()` clears all pending timers and never leads to a retry. -/
theorem c2_disconnect_schedules_retry :
    (steps noThrow World.init exT2).map
      (fun w => (w.timers, w.schedLog)) = some (1, [(1, 1000)]) := by
  rfl

/-- Counterexample to C3: a fresh client registers a handler for
`connection_established`, connects, and the transport signals open
(`resolves = 1` shows the open succeeded); yet nothing is dispatched and no
frame — in particular no `get_history` — is sent, contradicting the claim
that the client synthesizes a `connection_established` event and issues
`requestHistory()` on every successful open. -/
theorem c3_open_dispatches_nothing :
    (steps noThrow World.init exT3).map
      (fun w => (w.dispatched, w.sent, w.resolves)) = some ([], [], 1) := by
  rfl

/-- Claim C3 (amended): on a successful transport open the client only
clears `isConnecting`, resets the attempt counter and resolves the pending
`connect()` promise — it dispatches no event and sends no frame.  A
`connection_established` event reaches subscribers only when the server
sends a frame with that tag; it is that dispatch (whose UI handler calls
`requestMessageHistory`) which triggers the history request, not the open
itself. -/
theorem c3_open_behavior (throws : Nat → Bool) (w : World) (sid : Nat) :
    (∀ w', step throws w (Ev.openEvt sid) = some w' →
      w'.client.reconnectAttempts = 0 ∧ w'.client.isConnecting = false ∧
      w'.dispatched = w.dispatched ∧ w'.sent = w.sent ∧
      w'.resolves = w.resolves + 1) ∧
    (∀ h w', mget w.sockets sid = some SockState.opened →
      mget w.client.messageHandlers "connection_established" = some h →
      throws h = false →
      mget w.client.messageHandlers "*" = none →
      step throws w (Ev.msgEvt sid (some "connection_established")) = some w' →
      w'.dispatched = w.dispatched ++ [h]) := by
  constructor
  · intro w' hs
    simp only [step] at hs
    split at hs
    · simp only [Option.some.injEq] at hs
      subst hs
      exact ⟨rfl, rfl, rfl, rfl, rfl⟩
    · exact absurd hs (by simp)
  · intro h w' hsock hh hth hg hs
    simp only [step] at hs
    split at hs
    · simp only [Option.some.injEq] at hs
      subst hs
      simp [onMessageCb, handleMessage, hh, hth, hg]
    · exact absurd hs (by simp)

/-- Witness for C3 (amended): a concrete open resets the counter and
dispatches nothing, and a concrete server-sent `connection_established`
frame reaches the registered handler. -/
theorem c3_open_behavior_witness :
    (exW3b.client.reconnectAttempts = 0 ∧ exW3b.client.isConnecting = false ∧
     exW3b.dispatched = exW3.dispatched ∧ exW3b.sent = exW3.sent ∧
     exW3b.resolves = exW3.resolves + 1) ∧
    exEstW2.dispatched = exEstW.dispatched ++ [7] :=
  ⟨(c3_open_behavior noThrow exW3 0).1 exW3b rfl,
   (c3_open_behavior noThrow exEstW 0).2 7 exEstW2 rfl rfl rfl rfl rfl⟩

/-- Counterexample to C4: with a handler registered under the `error` tag,
`sendMessage` while disconnected issues no frame — but it also dispatches
nothing at all (the source only calls `console.error`), contradicting the
claim that the failure is reported to subscribers under the `error` tag. -/
theorem c4_send_closed_no_dispatch :
    (steps noThrow World.init exT4).map
      (fun w => (w.sent, w.dispatched, w.client.messageHandlers)) =
      some ([], [], [("error", 9)]) := by
  rfl

/-- Claim C4 (amended): `sendMessage` while the connection is not open is a
complete no-op apart from a console log: it issues no outbound frame, throws
nothing, and leaves the whole state — including the dispatch log — exactly
as it was; no `error`-tagged dispatch reaches subscribers. -/
theorem c4_send_not_open_noop (throws : Nat → Bool) (w : World)
    (content : String) (md : Option (List (String × JVal)))
    (provider : Option String) (now : Nat) (h : wsIsOpen w = false) :
    step throws w (Ev.callSend content md provider now) = some w := by
  simp [step, h]

/-- Witness for C4 (amended): sending on a freshly constructed, never
connected client changes nothing. -/
theorem c4_send_not_open_noop_witness :
    step noThrow World.init (Ev.callSend "hi" none none 0) =
      some World.init :=
  c4_send_not_open_noop noThrow World.init "hi" none none 0 rfl

/-- Counterexample to C5: with handler 1 under `message` and handler 2
under the wildcard, and handler 1 throwing, only handler 1 runs — the
wildcard handler is never invoked, because `handleMessage` has no
per-invocation isolation and the exception aborts it before the wildcard
lookup. -/
theorem c5_throwing_specific_skips_wildcard :
    (handleMessage [("message", 1), ("*", 2)] oneThrow "message").1 = [1] ∧
    2 ∉ (handleMessage [("message", 1), ("*", 2)] oneThrow "message").1 := by
  decide

/-- Claim C5 (amended): when both a specific handler and a wildcard handler
are registered, a dispatched event invokes the specific handler first and
then the wildcard handler, each exactly once — provided the specific handler
does not throw; if it throws, the wildcard handler is skipped (the exception
is caught by the transport's message callback). -/
theorem c5_dispatch_order (hs : List (String × Nat)) (throws : Nat → Bool)
    (tag : String) (h g : Nat) (hh : mget hs tag = some h)
    (hg : mget hs "*" = some g) :
    (throws h = false → (handleMessage hs throws tag).1 = [h, g]) ∧
    (throws h = true → (handleMessage hs throws tag).1 = [h]) := by
  unfold handleMessage
  rw [hh, hg]
  constructor
  · intro ht
    simp [ht]
  · intro ht
    simp [ht]

/-- Witness for C5 (amended): with a non-throwing specific handler both
handlers fire, specific first. -/
theorem c5_dispatch_order_witness :
    (handleMessage [("message", 1), ("*", 2)] noThrow "message").1 = [1, 2] :=
  (c5_dispatch_order [("message", 1), ("*", 2)] noThrow "message" 1 2
    rfl rfl).1 rfl

/-- Counterexample to C6: a parseable frame whose tag `bogus` is outside the
recognized `ChannelEvent` tag set is not dropped — it is surfaced to the
wildcard subscriber, because `handleMessage` dispatches every parsed frame
regardless of its tag. -/
theorem c6_unrecognized_tag_surfaced :
    "bogus" ∉ recognizedTags ∧
    onMessageCb [("*", 2)] noThrow (some "bogus") = [2] := by
  decide

/-- Claim C6 (amended): a frame that fails to parse is dropped silently —
no handler is invoked, no exception escapes the message callback, and the
client state is unchanged.  A frame that parses is dispatched regardless of
whether its tag is recognized: with no specific handler for the tag, the
wildcard subscriber (when registered) receives it. -/
theorem c6_decode_error_dropped (throws : Nat → Bool) :
    (∀ hs : List (String × Nat), onMessageCb hs throws none = []) ∧
    (∀ (w : World) (sid : Nat) (w' : World),
      step throws w (Ev.msgEvt sid none) = some w' →
      w'.client = w.client ∧ w'.sockets = w.sockets ∧ w'.sent = w.sent ∧
      w'.dispatched = w.dispatched) ∧
    (∀ (hs : List (String × Nat)) (tag : String) (g : Nat),
      mget hs tag = none → mget hs "*" = some g →
      onMessageCb hs throws (some tag) = [g]) := by
  refine ⟨fun hs => rfl, ?_, ?_⟩
  · intro w sid w' hstep
    simp only [step] at hstep
    split at hstep
    · simp only [Option.some.injEq] at hstep
      subst hstep
      simp [onMessageCb]
    · exact absurd hstep (by simp)
  · intro hs tag g hn hg
    show (handleMessage hs throws tag).1 = [g]
    unfold handleMessage
    rw [hn, hg]

/-- Witness for C6 (amended): an unparseable frame on a concrete open
socket invokes nothing and leaves the client untouched; a parseable frame
with the unrecognized tag `typing2` still reaches the wildcard handler. -/
theorem c6_decode_error_dropped_witness :
    onMessageCb ([] : List (String × Nat)) noThrow none = [] ∧
    exMsgNoneW.client = exOpenW.client ∧
    onMessageCb [("*", 2)] noThrow (some "typing2") = [2] :=
  ⟨(c6_decode_error_dropped noThrow).1 [],
   ((c6_decode_error_dropped noThrow).2.1 exOpenW 0 exMsgNoneW rfl).1,
   (c6_decode_error_dropped noThrow).2.2 [("*", 2)] "typing2" 2 rfl rfl⟩

/-- Counterexample to C7: the single-connection invariant fails.  After a
transport error clears `isConnecting`, a second `connect()` builds socket 1
while errored socket 0 is still closing; socket 0's close event then nulls
`this.ws` (which pointed at socket 1) and schedules a retry, whose timer
builds socket 2 — and both socket 1 and socket 2 can end up OPEN at the
same time. -/
theorem c7_two_concurrent_connections :
    (steps noThrow World.init exT7).map openCount = some 2 := by
  rfl

/-- Claim C7 (amended): while the `isConnecting` flag is set or the socket
currently referenced by `this.ws` is open, `connect()` resolves immediately
as a pure no-op — the state, including the socket table and the fresh-id
counter, is unchanged, so no second underlying connection is constructed by
such a call.  (The stronger claim that at most one underlying connection
ever exists is refuted separately.) -/
theorem c7_connect_noop_when_open_or_connecting (throws : Nat → Bool)
    (w : World) (h : w.client.isConnecting = true ∨ wsIsOpen w = true) :
    step throws w Ev.callConnect = some { w with resolves := w.resolves + 1 } := by
  simp only [step, Option.some.injEq]
  unfold connectBody
  rcases h with h | h <;> simp [h]

/-- Witness for C7 (amended): a client in the middle of its first
`connect()` treats a second `connect()` as a no-op. -/
theorem c7_connect_noop_witness :
    step noThrow exConnW Ev.callConnect =
      some { exConnW with resolves := exConnW.resolves + 1 } :=
  c7_connect_noop_when_open_or_connecting noThrow exConnW (Or.inl rfl)

/-- Claim C8: processing an inbound frame never changes the client's state —
socket handle, `isConnecting` flag, attempt counter and handler registry
(`w'.client = w.client`), socket table, outbound log, timers and retry
schedule are all untouched — whatever the subscriber handlers do, including
throwing: the `try`/`catch` of the message callback absorbs the exception
(the step always succeeds) and only the invocation log grows, by exactly
the invocations `onMessageCb` performed before any uncaught throw. -/
theorem c8_dispatch_preserves_state (throws : Nat → Bool) (w : World)
    (sid : Nat) (raw : Option String) (w' : World)
    (hs : step throws w (Ev.msgEvt sid raw) = some w') :
    w'.client = w.client ∧ w'.sockets = w.sockets ∧ w'.sent = w.sent ∧
    w'.timers = w.timers ∧ w'.schedLog = w.schedLog ∧
    w'.dispatched = w.dispatched ++
      onMessageCb w.client.messageHandlers throws raw := by
  simp only [step] at hs
  split at hs
  · simp only [Option.some.injEq] at hs
    subst hs
    exact ⟨rfl, rfl, rfl, rfl, rfl, rfl⟩
  · exact absurd hs (by simp)

/-- Witness for C8: a `message` frame whose specific handler throws leaves
the client fields unchanged and logs exactly the one invocation that
happened before the throw. -/
theorem c8_dispatch_preserves_state_witness :
    exMsgThrowW.client = exOpenW.client ∧
    exMsgThrowW.sockets = exOpenW.sockets ∧
    exMsgThrowW.sent = exOpenW.sent ∧
    exMsgThrowW.timers = exOpenW.timers ∧
    exMsgThrowW.schedLog = exOpenW.schedLog ∧
    exMsgThrowW.dispatched = exOpenW.dispatched ++
      onMessageCb exOpenW.client.messageHandlers oneThrow (some "message") :=
  c8_dispatch_preserves_state oneThrow exOpenW 0 (some "message")
    exMsgThrowW rfl

/-- Claim C9: `disconnect()` empties the subscriber registry, and as long as
no new `onMessage` registration happens, the registry stays empty and no
handler is ever invoked again — any later inbound frame, including one on a
connection re-established afterwards, dispatches against the empty map, so
the invocation log never grows past its pre-disconnect contents. -/
theorem c9_disconnect_unsubscribes (throws : Nat → Bool) (w wd : World)
    (evs : List Ev) (w' : World)
    (hd : step throws w Ev.callDisconnect = some wd)
    (hs : steps throws wd evs = some w')
    (hnoton : ∀ e ∈ evs, e.isOn = false) :
    w'.client.messageHandlers = [] ∧ w'.dispatched = w.dispatched := by
  have hwd : wd.client.messageHandlers = [] ∧ wd.dispatched = w.dispatched := by
    simp only [step, Option.some.injEq] at hd
    subst hd
    exact ⟨rfl, rfl⟩
  obtain ⟨hh, hdisp⟩ := steps_handlers_empty hwd.1 hnoton hs
  exact ⟨hh, hdisp.trans hwd.2⟩

/-- Witness for C9: a subscribed, connected client disconnects; the old
socket closes, the (buggy) retry re-establishes a connection, and a live
`message` frame arrives — still, the registry is empty and nothing was
dispatched. -/
theorem c9_disconnect_unsubscribes_witness :
    exW9f.client.messageHandlers = [] ∧ exW9f.dispatched = exW9.dispatched :=
  c9_disconnect_unsubscribes noThrow exW9 exW9d exT9 exW9f rfl rfl (by decide)

/-- Claim C10: `sendMessage` on an open socket appends exactly one frame of
type `message` carrying the given content, the current clock value as its
timestamp, and a metadata object that is always present — the caller's
metadata (the empty object when none is passed) with the key `provider`
bound to the provider argument (JS `undefined` when absent) and every other
key unchanged. -/
theorem c10_send_frame (throws : Nat → Bool) (w : World) (sid : Nat)
    (content : String) (md : Option (List (String × JVal)))
    (provider : Option String) (now : Nat)
    (hws : w.client.ws = some sid)
    (hopen : mget w.sockets sid = some SockState.opened) :
    step throws w (Ev.callSend content md provider now) =
      some { w with sent := w.sent ++ [mkMessageFrame content md provider now] } ∧
    (mkMessageFrame content md provider now).type = "message" ∧
    (mkMessageFrame content md provider now).content = some content ∧
    (mkMessageFrame content md provider now).timestamp = some now ∧
    (mkMessageFrame content md provider now).metadata =
      some (mdSpread md provider) ∧
    mget (mdSpread md provider) "provider" = some (provVal provider) ∧
    (∀ k, k ≠ "provider" →
      mget (mdSpread md provider) k = mget (md.getD []) k) := by
  have hg : wsIsOpen w = true := by
    unfold wsIsOpen
    rw [hws]
    show sockIsOpen w.sockets sid = true
    unfold sockIsOpen
    rw [hopen]
  refine ⟨?_, rfl, rfl, rfl, rfl, mget_mdSpread_provider md provider,
    fun k hk => mget_mdSpread_other md provider k hk⟩
  simp [step, hg]

/-- Witness for C10: a concrete send on an open socket, with caller metadata
`{k: "v"}` and provider `openai`. -/
theorem c10_send_frame_witness :
    step noThrow exOpenW
        (Ev.callSend "hi" (some [("k", JVal.vStr "v")]) (some "openai") 5) =
      some { exOpenW with sent := exOpenW.sent ++
        [mkMessageFrame "hi" (some [("k", JVal.vStr "v")]) (some "openai") 5] } ∧
    mget (mdSpread (some [("k", JVal.vStr "v")]) (some "openai")) "provider" =
      some (provVal (some "openai")) :=
  ⟨(c10_send_frame noThrow exOpenW 0 "hi" (some [("k", JVal.vStr "v")])
      (some "openai") 5 rfl rfl).1,
   (c10_send_frame noThrow exOpenW 0 "hi" (some [("k", JVal.vStr "v")])
      (some "openai") 5 rfl rfl).2.2.2.2.2.1⟩

end AllHands
